import Mathlib

/-!
Verification development for the cash-faster loan-categorization pipeline
(src/main.py).  The Python functions are shallowly embedded: Python floats
are modelled as rationals, Python dict values as a tagged value type, and
code that can raise an uncaught exception returns `Except Unit`.
Rounding `round(x, 2)` is modelled as rounding `x * 100` to the nearest
integer; no input considered here sits on a rounding tie, so the
difference between Python banker's rounding and round-half-up is moot.
-/

namespace CashFaster

/-- A Python value as it appears in an amount/value field.
`num q` covers int/float/bool values equal to `q`;
`strNum q` covers strings that Python `float()` accepts, with value `q`;
`strBad` covers strings `float()` rejects (raising ValueError);
`other` covers every non-str non-numeric value (None, list, dict, ...),
on which `float()` raises TypeError.  A missing field whose `.get`
default is `0` is modelled as `num 0`. -/
inductive Val where
  | num (q : ℚ)
  | strNum (q : ℚ)
  | strBad
  | other
deriving DecidableEq

/-- A member of a transaction's `tags` list: either a dict whose
`creditDebit` entry is the given string (`none` when the key is missing
or its value is not a string), or a non-dict element. -/
inductive Tag where
  | tdict (creditDebit : Option String)
  | tnondict
deriving DecidableEq

/-- A transaction dict: `amount` (missing modelled as `num 0`, see `Val`)
and `tags` (missing modelled as the empty list). -/
structure Transaction where
  amount : Val
  tags : List Tag
deriving DecidableEq

/-- The `transactions` field of a transaction group: either an actual
list, or a JSON string.  For the string case, `raw` is the string itself
(its emptiness decides whether iterating it yields any characters) and
`parsed` is its JSON decoding when it decodes to a transaction list,
`none` on a decode failure.  (A string decoding to valid JSON that is
not a list is outside the modelled input space.) -/
inductive TransField where
  | tlist (ts : List Transaction)
  | tstr (raw : String) (parsed : Option (List Transaction))
deriving DecidableEq

structure TransactionGroup where
  name : Option String
  transactions : TransField
deriving DecidableEq

/-- An element of `analysisPoints`: `name` is `none` when missing or not
a string. -/
structure AnalysisPoint where
  name : Option String
  value : Val
deriving DecidableEq

structure AnalysisCategory where
  name : Option String
  analysisPoints : List AnalysisPoint
  transactionGroups : List TransactionGroup
deriving DecidableEq

/-- An element of the statement-analysis list: either a dict (whose
`analysisCategory`, defaulting to an empty dict, is carried directly) or
a non-dict element, which every loop skips. -/
inductive SAItem where
  | entry (analysisCategory : AnalysisCategory)
  | nondict
deriving DecidableEq

/-- A decision-metrics entry.  `value` is the metric's value after
Python's `str(...)` coercion (the upstream schema already sends strings,
on which `str` is the identity); a missing value field yields "0.0". -/
structure DecisionMetric where
  name : Option String
  value : String
deriving DecidableEq

/-- The `SACC` slot of the category totals dict holds either a plain
float or a per-counterparty breakdown dict (modelled as an
insertion-ordered association list). -/
inductive SaccVal where
  | scalar (q : ℚ)
  | breakdown (l : List (String × ℚ))
deriving DecidableEq

/-- The category-totals dict.  Its key set is statically known, so it is
embedded as a structure; `rent`, `gambling` and `insurance` are absent
from the dict until `accumulate_metrics_from_statement_analysis` assigns
them, which is modelled by initializing them to 0. -/
structure CategoryTotals where
  wages : ℚ
  centrelink : ℚ
  sacc : SaccVal
  debtCollection : ℚ
  livingExpenses : ℚ
  rent : ℚ
  gambling : ℚ
  insurance : ℚ
deriving DecidableEq

/-- Embeds initialize_category_totals (main.py:38-42): Wages, Centrelink,
SACC, Debt Collection and Living Expenses all start at the float 0.0. -/
def init_category_totals : CategoryTotals :=
  { wages := 0, centrelink := 0, sacc := SaccVal.scalar 0, debtCollection := 0
  , livingExpenses := 0, rent := 0, gambling := 0, insurance := 0 }

deriving instance DecidableEq for Except

/-- Python round(x, 2), on exact rationals. -/
def round2 (q : ℚ) : ℚ := ((round (q * 100) : ℤ) : ℚ) / 100

/-- The expression abs(float(value)) if isinstance(value, (str, int, float))
else 0.0, wrapped in try/except (ValueError, TypeError) returning 0.0
(main.py:74-79, and the per-transaction body of the fallback loop,
main.py:86-90, where the except clause skips the transaction, likewise
contributing 0). -/
def py_abs_float (v : Val) : ℚ :=
  match v with
  | Val.num q => abs q
  | Val.strNum q => abs q
  | Val.strBad => 0
  | Val.other => 0

/-- Bare float(value) with no surrounding try/except: a non-numeric
string raises ValueError and a non-str non-numeric value raises
TypeError (the Gambling branch, main.py:227-236). -/
def py_float_exn (v : Val) : Except Unit ℚ :=
  match v with
  | Val.num q => Except.ok q
  | Val.strNum q => Except.ok q
  | Val.strBad => Except.error ()
  | Val.other => Except.error ()

/-- Per-transaction term of the fallback sum of
get_amount_from_analysis_category (main.py:85-90). -/
def sum_abs_transactions : List Transaction → ℚ
  | [] => 0
  | t :: rest => py_abs_float t.amount + sum_abs_transactions rest

/-- The fallback loop of get_amount_from_analysis_category
(main.py:81-92).  Iterating a JSON-string `transactions` field iterates
its characters; each character is a str, so `transaction.get("amount", 0)`
raises AttributeError, which the except clause (ValueError, TypeError)
does not catch: a nonempty string field makes the helper raise, an empty
one contributes nothing. -/
def get_amount_fallback : List TransactionGroup → ℚ → Except Unit ℚ
  | [], acc => Except.ok acc
  | g :: rest, acc =>
    match g.transactions with
    | TransField.tlist ts => get_amount_fallback rest (acc + sum_abs_transactions ts)
    | TransField.tstr raw _ =>
      if raw.isEmpty then get_amount_fallback rest acc else Except.error ()

/-- Embeds get_amount_from_analysis_category (main.py:71-92): first
matching analysis point wins and is coerced via `py_abs_float`;
otherwise the fallback sums absolute transaction amounts. -/
def get_amount_from_analysis_category (c : AnalysisCategory) (key : String) :
    Except Unit ℚ :=
  match c.analysisPoints.find? (fun p => decide (p.name = some key)) with
  | some p => Except.ok (py_abs_float p.value)
  | none => get_amount_fallback c.transactionGroups 0

/-- First-insertion-order distinct keys of a list: the key view of a
Python dict or collections.Counter built from the list. -/
def counter_keys : List ℚ → List ℚ
  | [] => []
  | a :: rest => a :: counter_keys (rest.filter (fun b => decide (b ≠ a)))
termination_by l => l.length
decreasing_by
  simp only [List.length_cons]
  exact Nat.lt_succ_of_le (List.length_filter_le _ _)

/-- Models Counter(l).items(): distinct values in first-encounter order,
each paired with its total multiplicity in `l`. -/
def counter_items (l : List ℚ) : List (ℚ × ℕ) :=
  (counter_keys l).map (fun a => (a, l.count a))

/-- Embeds get_top_recurring_transaction_amount (main.py:94-108) on a
list of transaction dicts: keep debit amounts (numeric and < 0) as
absolute values, then return the first Counter entry with count >= 3,
else 0.0. -/
def get_top_recurring_transaction_amount (ts : List Transaction) : ℚ :=
  let amounts := ts.filterMap (fun t =>
    match t.amount with
    | Val.num q => if q < 0 then some (abs q) else none
    | _ => none)
  if amounts.isEmpty then 0
  else
    match (counter_items amounts).find? (fun pr => decide (3 ≤ pr.2)) with
    | some pr => pr.1
    | none => 0

/-- Python dict assignment d[k] = v on an insertion-ordered association
list: an existing key keeps its position, a new key is appended. -/
def upsert (l : List (String × ℚ)) (k : String) (v : ℚ) : List (String × ℚ) :=
  if l.any (fun pr => decide (pr.1 = k)) then
    l.map (fun pr => if pr.1 = k then (k, v) else pr)
  else l ++ [(k, v)]

/-- The tag scan of calculate_sacc_loans (main.py:135-139): any tag that
is a dict whose creditDebit equals "credit". -/
def is_credit_tags (tags : List Tag) : Bool :=
  tags.any (fun t =>
    match t with
    | Tag.tdict cd => decide (cd = some ("credit"))
    | Tag.tnondict => false)

/-- The inner transaction loop of calculate_sacc_loans (main.py:131-145):
on a credit-tagged transaction whose amount is numeric and > 0, record
it for the counterparty and break; any other transaction (including a
credit-tagged one with a non-positive or non-numeric amount) is passed
over and the scan continues. -/
def sacc_scan_group (party : String) :
    List Transaction → List (String × ℚ) → List (String × ℚ)
  | [], res => res
  | t :: rest, res =>
    if is_credit_tags t.tags then
      match t.amount with
      | Val.num q =>
        if 0 < q then upsert res party q else sacc_scan_group party rest res
      | _ => sacc_scan_group party rest res
    else sacc_scan_group party rest res

/-- The `transactions` value seen by calculate_sacc_loans after its
json.loads step (main.py:122-129): a list is used as is; a JSON string
is decoded, and a decode failure skips the group. -/
def sacc_group_transactions : TransField → Option (List Transaction)
  | TransField.tlist ts => some ts
  | TransField.tstr _ parsed => parsed

/-- Step 1 of calculate_sacc_loans (main.py:110-145): the sacc_results
dict, mapping each counterparty to its representative loan amount. -/
def sacc_results (sa : List SAItem) : List (String × ℚ) :=
  sa.foldl (fun res item =>
    match item with
    | SAItem.nondict => res
    | SAItem.entry c =>
      if c.name = some ("SACC Loans") then
        c.transactionGroups.foldl (fun res g =>
          match sacc_group_transactions g.transactions with
          | none => res
          | some ts => sacc_scan_group (g.name.getD ("Unknown")) ts res) res
      else res) []

/-- Step 2 of calculate_sacc_loans (main.py:147-172).  The external
loan-calculator is abstracted as an oracle from (truncated amount, term)
to the parsed repayment amount; `none` models a transport failure, on
which that counterparty is omitted.  Recorded amounts are positive, so
Python int() truncation is the floor. -/
def calculate_sacc_loans (svc : ℤ → ℕ → Option ℚ) (sa : List SAItem) :
    List (String × ℚ) :=
  (sacc_results sa).foldl (fun tot (pr : String × ℚ) =>
    let term : ℕ := if pr.2 < 300 then 2 else 5
    match svc (Int.floor pr.2) term with
    | none => tot
    | some rep => upsert tot pr.1 rep) []

/-- A loan-calculator oracle on which every lookup fails. -/
def svc_none : ℤ → ℕ → Option ℚ := fun _ _ => none

/-- The transaction flattening of the Rent branch (main.py:204-207)
composed with the list comprehension at the top of
get_top_recurring_transaction_amount: extending with a JSON-string
`transactions` field appends its characters, and the comprehension's
`transaction.get("amount")` then raises AttributeError on the first
character, so the branch raises exactly when some group's field is a
nonempty string. -/
def collect_transactions : List TransactionGroup → Except Unit (List Transaction)
  | [] => Except.ok []
  | g :: rest =>
    match g.transactions with
    | TransField.tlist ts => (collect_transactions rest).map (fun more => ts ++ more)
    | TransField.tstr raw _ =>
      if raw.isEmpty then collect_transactions rest else Except.error ()

/-- The Gambling generator sums (main.py:227-236):
sum(float(entry.get("value", 0)) for entry in points if name matches),
with the bare float() raising on the first non-floatable value. -/
def sum_points_value (ps : List AnalysisPoint) (key : String) : Except Unit ℚ :=
  match ps with
  | [] => Except.ok 0
  | p :: rest =>
    if p.name = some key then do
      let v ← py_float_exn p.value
      let s ← sum_points_value rest key
      Except.ok (v + s)
    else sum_points_value rest key

/-- One iteration of the per-entry loop of
accumulate_metrics_from_statement_analysis (main.py:195-242), over the
state (category totals, rent_found). -/
def accum_step (s : CategoryTotals × Bool) (item : SAItem) :
    Except Unit (CategoryTotals × Bool) :=
  match item with
  | SAItem.nondict => Except.ok s
  | SAItem.entry c =>
    if c.name = some ("Rent") then do
      let ts ← collect_transactions c.transactionGroups
      Except.ok
        ({ s.1 with rent := s.1.rent + get_top_recurring_transaction_amount ts }, true)
    else if c.name = some ("Insurance") then do
      let a ← get_amount_from_analysis_category c ("averageTransactionAmount")
      Except.ok (if 0 < a then ({ s.1 with insurance := s.1.insurance + a }, s.2) else s)
    else if c.name = some ("Wages") then do
      let a ← get_amount_from_analysis_category c ("averageTransactionAmount")
      Except.ok (if 0 < a then ({ s.1 with wages := s.1.wages + a }, s.2) else s)
    else if c.name = some ("Centrelink") then do
      let a ← get_amount_from_analysis_category c ("averageTransactionAmount")
      Except.ok (if 0 < a then ({ s.1 with centrelink := a }, s.2) else s)
    else if c.name = some ("Gambling") then do
      let d ← sum_points_value c.analysisPoints ("totalAmountDebits")
      let cr ← sum_points_value c.analysisPoints ("totalAmountCredits")
      let net := d - cr
      let fort := if 0 < net then round2 (net / 6 * 12 / 26) else 0
      Except.ok ({ s.1 with gambling := s.1.gambling + fort }, s.2)
    else Except.ok s

/-- The per-entry loop of accumulate_metrics_from_statement_analysis. -/
def accum_loop : List SAItem → (CategoryTotals × Bool) → Except Unit (CategoryTotals × Bool)
  | [], s => Except.ok s
  | item :: rest, s => do accum_loop rest (← accum_step s item)

/-- Embeds accumulate_metrics_from_statement_analysis (main.py:175-245):
reset the statement-analysis-derived slots, store the SACC breakdown
(line 182 makes the slot an empty dict, lines 189-190 replace it only
when nonempty), run the per-entry loop, and force Rent back to 0.0 when
no Rent entry was seen. -/
def accumulate_metrics_from_statement_analysis (svc : ℤ → ℕ → Option ℚ)
    (sa : List SAItem) (t0 : CategoryTotals) : Except Unit CategoryTotals :=
  let t := { t0 with rent := 0, centrelink := 0, gambling := 0,
                     sacc := SaccVal.breakdown [], debtCollection := 0,
                     wages := 0, insurance := 0 }
  let saccTot := calculate_sacc_loans svc sa
  let t := if saccTot.isEmpty then t else { t with sacc := SaccVal.breakdown saccTot }
  match accum_loop sa (t, false) with
  | Except.error e => Except.error e
  | Except.ok (t1, rentFound) =>
    Except.ok (if rentFound then t1 else { t1 with rent := 0 })

/-- Decimal value of a digit list; fails on a non-digit. -/
def dec_digits (l : List Char) : Option ℕ :=
  l.foldlM (fun acc c => if c.isDigit then some (acc * 10 + (c.toNat - 48)) else none) 0

/-- Model of Python float() on a string, restricted to optionally signed
plain decimal literals with optional surrounding whitespace (the only
shapes the upstream currency strings take); `none` models ValueError. -/
def py_float (s : String) : Option ℚ :=
  let body := (String.trim s).toList
  let (sgn, digitsPart) :=
    match body with
    | '-' :: rest => ((-1 : ℚ), rest)
    | '+' :: rest => ((1 : ℚ), rest)
    | l => ((1 : ℚ), l)
  let intPart := digitsPart.takeWhile (fun c => decide (c ≠ '.'))
  let rest := digitsPart.dropWhile (fun c => decide (c ≠ '.'))
  match rest with
  | [] =>
    if intPart.isEmpty then none
    else (dec_digits intPart).map (fun n => sgn * (n : ℚ))
  | _ :: frac =>
    if frac.any (fun c => decide (c = '.')) then none
    else if intPart.isEmpty && frac.isEmpty then none
    else
      match dec_digits intPart, dec_digits frac with
      | some i, some f => some (sgn * ((i : ℚ) + (f : ℚ) / (10 : ℚ) ^ frac.length))
      | _, _ => none

/-- value_str.replace("$", "").replace(" (Once off)", "") (main.py:277). -/
def strip_value (s : String) : String :=
  String.replace (String.replace s ("$") ("")) (" (Once off)") ("")

/-- The substring test: "(Once off)" in value_str (main.py:272). -/
def contains_once_off (s : String) : Bool :=
  1 < (s.splitOn ("(Once off)")).length

/-- The labels skipped after parsing (main.py:282). -/
def skip_names : List (Option String) :=
  [some ("Wages - Monthly"), some ("Centrelink - Monthly"),
   some ("SACC Loans - Monthly"), some ("All Loans - Monthly")]

/-- The living-expense loop of categorize_data (main.py:255-286), over
(rent_found latch, running total). -/
def living_expenses_loop : List DecisionMetric → Bool → ℚ → ℚ
  | [], _, acc => acc
  | m :: rest, rf, acc =>
    if m.name = some ("Rent - Monthly") then living_expenses_loop rest true acc
    else if !rf then living_expenses_loop rest rf acc
    else if m.name = some ("Insurance - Monthly") || contains_once_off m.value then
      living_expenses_loop rest rf acc
    else
      let v := (py_float (strip_value m.value)).getD 0
      if m.name ∈ skip_names then living_expenses_loop rest rf acc
      else living_expenses_loop rest rf (acc + v)

/-- The living-expense extractor of categorize_data (main.py:255-289):
run the latched loop, then convert monthly to fortnightly. -/
def categorize_data_living_expenses (ms : List DecisionMetric) : ℚ :=
  round2 (living_expenses_loop ms false 0 * 12 / 26)

/-- income_categories.values() (main.py:27-30), in dict order. -/
def income_category_labels : List String := [("Wages"), ("Centrelink")]

/-- Scalar lookup category_totals[label] for the float-valued slots. -/
def category_value (t : CategoryTotals) (label : String) : ℚ :=
  if label = ("Wages") then t.wages
  else if label = ("Centrelink") then t.centrelink
  else if label = ("Rent") then t.rent
  else if label = ("Gambling") then t.gambling
  else if label = ("Debt Collection") then t.debtCollection
  else if label = ("Insurance") then t.insurance
  else if label = ("Living Expenses") then t.livingExpenses
  else 0

/-- Embeds calculate_totals (main.py:295-310), returning
(total_income, total_expenses, surplus). -/
def calculate_totals (t : CategoryTotals) : ℚ × ℚ × ℚ :=
  let total_income := round2 ((income_category_labels.map (category_value t)).sum)
  let total_sacc :=
    match t.sacc with
    | SaccVal.breakdown m => (m.map Prod.snd).sum
    | SaccVal.scalar q => q
  let total_expenses := round2 (total_sacc + t.debtCollection + t.livingExpenses)
  (total_income, total_expenses, round2 (total_income - total_expenses))

end CashFaster

namespace CashFaster

/-! ## Spec-side definitions (written from the specification's words,
to be compared with the embedded code) -/

/-- Spec wording for the fallback path of the amount-extraction helper:
the sum, over every transaction group, of the absolute values of every
transaction amount (groups whose transactions field is not a list
contribute nothing under this spec-side reading). -/
def spec_fallback_total (gs : List TransactionGroup) : ℚ :=
  (gs.map (fun g =>
    match g.transactions with
    | TransField.tlist ts => sum_abs_transactions ts
    | TransField.tstr _ _ => 0)).sum

/-- Spec wording for a representative SACC transaction amount: numeric
and strictly positive. -/
def cred_pos_amount : Val → Bool
  | Val.num q => decide (0 < q)
  | _ => false

/-- The numeric value of a `Val` known to be numeric. -/
def num_val : Val → ℚ
  | Val.num q => q
  | _ => 0

/-- Spec wording of the recurring-amount detector: keep debit
transactions (numeric amount < 0) as absolute values in encounter
order, and return the first amount whose occurrence count is at
least 3, else 0.0. -/
def spec_recurring_amount (ts : List Transaction) : ℚ :=
  let amounts := ts.filterMap (fun t =>
    match t.amount with
    | Val.num q => if q < 0 then some (abs q) else none
    | _ => none)
  (amounts.find? (fun a => decide (3 ≤ amounts.count a))).getD 0

/-- A transactions field that is an actual list (not a JSON string). -/
def trans_ok : TransField → Bool
  | TransField.tlist _ => true
  | TransField.tstr _ _ => false

/-- A value the bare float() coercion accepts. -/
def val_floatable : Val → Bool
  | Val.num _ => true
  | Val.strNum _ => true
  | _ => false

/-- A statement-analysis item on which the per-entry pass cannot raise:
all transactions fields are actual lists, and every Gambling-relevant
analysis point holds a float()-able value. -/
def safe_item : SAItem → Bool
  | SAItem.nondict => true
  | SAItem.entry c =>
    c.transactionGroups.all (fun g => trans_ok g.transactions) &&
    c.analysisPoints.all (fun p =>
      !(decide (p.name = some ("totalAmountDebits")) ||
        decide (p.name = some ("totalAmountCredits"))) || val_floatable p.value)

/-- The category name of a statement-analysis item, as read by the
per-entry loop (`none` for non-dict items and missing categories). -/
def item_category_name : SAItem → Option String
  | SAItem.entry c => c.name
  | SAItem.nondict => none

/-! ## Helper lemmas -/

theorem get_amount_fallback_tlist (gs : List TransactionGroup) (acc : ℚ)
    (h : ∀ g ∈ gs, trans_ok g.transactions = true) :
    get_amount_fallback gs acc = Except.ok (acc + spec_fallback_total gs) := by
  induction gs generalizing acc with
  | nil => simp [get_amount_fallback, spec_fallback_total]
  | cons g rest ih =>
    have hg := h g (List.mem_cons_self _ _)
    have hrest : ∀ g ∈ rest, trans_ok g.transactions = true :=
      fun g hm => h g (List.mem_cons_of_mem _ hm)
    cases htf : g.transactions with
    | tlist ts =>
      simp only [get_amount_fallback, htf, ih _ hrest, spec_fallback_total,
        List.map_cons, List.sum_cons]
      rw [add_assoc]
    | tstr raw parsed => rw [htf] at hg; simp [trans_ok] at hg

theorem collect_transactions_tlist (gs : List TransactionGroup)
    (h : ∀ g ∈ gs, trans_ok g.transactions = true) :
    ∃ ts, collect_transactions gs = Except.ok ts := by
  induction gs with
  | nil => exact ⟨[], rfl⟩
  | cons g rest ih =>
    have hg := h g (List.mem_cons_self _ _)
    obtain ⟨ts, hts⟩ := ih (fun g hm => h g (List.mem_cons_of_mem _ hm))
    cases htf : g.transactions with
    | tlist us =>
      exact ⟨us ++ ts, by simp [collect_transactions, htf, hts, Except.map]⟩
    | tstr raw parsed => rw [htf] at hg; simp [trans_ok] at hg

theorem sum_points_value_ok (ps : List AnalysisPoint) (key : String)
    (h : ∀ p ∈ ps, p.name = some key → val_floatable p.value = true) :
    ∃ q, sum_points_value ps key = Except.ok q := by
  induction ps with
  | nil => exact ⟨0, rfl⟩
  | cons p rest ih =>
    obtain ⟨s, hs⟩ := ih (fun p hm => h p (List.mem_cons_of_mem _ hm))
    by_cases hname : p.name = some key
    · have hv := h p (List.mem_cons_self _ _) hname
      cases hval : p.value with
      | num q =>
        refine ⟨q + s, ?_⟩
        simp only [sum_points_value, hname, hval, py_float_exn, hs, if_pos]
        rfl
      | strNum q =>
        refine ⟨q + s, ?_⟩
        simp only [sum_points_value, hname, hval, py_float_exn, hs, if_pos]
        rfl
      | strBad => rw [hval] at hv; simp [val_floatable] at hv
      | other => rw [hval] at hv; simp [val_floatable] at hv
    · exact ⟨s, by simp [sum_points_value, hname, hs]⟩

theorem get_amount_tlist_ok (c : AnalysisCategory) (key : String)
    (h : ∀ g ∈ c.transactionGroups, trans_ok g.transactions = true) :
    ∃ q, get_amount_from_analysis_category c key = Except.ok q := by
  unfold get_amount_from_analysis_category
  cases hf : c.analysisPoints.find? (fun p => decide (p.name = some key)) with
  | some p => exact ⟨py_abs_float p.value, rfl⟩
  | none => exact ⟨0 + spec_fallback_total c.transactionGroups,
      get_amount_fallback_tlist _ _ h⟩

end CashFaster

namespace CashFaster

theorem find?_filter_ne (p : ℚ → Bool) (a : ℚ) (hpa : p a = false) :
    ∀ l : List ℚ, (l.filter (fun b => decide (b ≠ a))).find? p = l.find? p := by
  intro l
  induction l with
  | nil => rfl
  | cons b rest ih =>
    by_cases hba : b = a
    · subst hba
      rw [List.filter_cons, if_neg (by simp)]
      rw [ih, List.find?_cons, hpa]
    · rw [List.filter_cons, if_pos (by simp [hba])]
      rw [List.find?_cons, List.find?_cons]
      cases hpb : p b with
      | true => rfl
      | false => exact ih

theorem counter_keys_find? (p : ℚ → Bool) :
    ∀ l : List ℚ, (counter_keys l).find? p = l.find? p
  | [] => by rw [counter_keys]
  | a :: rest => by
    rw [counter_keys]
    rw [List.find?_cons, List.find?_cons]
    cases hpa : p a with
    | true => rfl
    | false =>
      rw [counter_keys_find? p (rest.filter (fun b => decide (b ≠ a)))]
      exact find?_filter_ne p a hpa rest
termination_by l => l.length
decreasing_by
  simp only [List.length_cons]
  exact Nat.lt_succ_of_le (List.length_filter_le _ _)

theorem sacc_scan_group_find (party : String) :
    ∀ (ts : List Transaction) (res : List (String × ℚ)),
    sacc_scan_group party ts res =
      match ts.find? (fun t => is_credit_tags t.tags && cred_pos_amount t.amount) with
      | some t => upsert res party (num_val t.amount)
      | none => res := by
  intro ts
  induction ts with
  | nil => intro res; rfl
  | cons t rest ih =>
    intro res
    rw [List.find?_cons]
    cases hc : is_credit_tags t.tags with
    | false =>
      simp only [sacc_scan_group, hc, Bool.false_and, if_false, Bool.false_eq_true]
      exact ih res
    | true =>
      cases hval : t.amount with
      | num q =>
        by_cases hq : 0 < q
        · have hd : decide (0 < q) = true := by simp [hq]
          simp [sacc_scan_group, hc, hval, cred_pos_amount, hq, hd, num_val]
        · have hd : decide (0 < q) = false := by simp [hq]
          simp only [sacc_scan_group, hc, hval, cred_pos_amount, hd, hq,
            Bool.and_false, if_true, if_false, Bool.false_eq_true]
          exact ih res
      | strNum q =>
        simp only [sacc_scan_group, hc, hval, cred_pos_amount,
          Bool.and_false, if_true, Bool.false_eq_true, if_false]
        exact ih res
      | strBad =>
        simp only [sacc_scan_group, hc, hval, cred_pos_amount,
          Bool.and_false, if_true, Bool.false_eq_true, if_false]
        exact ih res
      | other =>
        simp only [sacc_scan_group, hc, hval, cred_pos_amount,
          Bool.and_false, if_true, Bool.false_eq_true, if_false]
        exact ih res

theorem living_expenses_loop_no_rent :
    ∀ (ms : List DecisionMetric) (acc : ℚ),
    (∀ m ∈ ms, m.name ≠ some ("Rent - Monthly")) →
    living_expenses_loop ms false acc = acc := by
  intro ms
  induction ms with
  | nil => intro acc _; rfl
  | cons m rest ih =>
    intro acc h
    have hm := h m (List.mem_cons_self _ _)
    simp only [living_expenses_loop, hm, if_false, Bool.not_false, if_true]
    exact ih acc (fun m hmem => h m (List.mem_cons_of_mem _ hmem))

end CashFaster

namespace CashFaster

theorem except_bind_ok {α β : Type} (a : α) (f : α → Except Unit β) :
    (Except.ok a : Except Unit α) >>= f = f a := rfl

theorem except_bind_error {α β : Type} (f : α → Except Unit β) :
    (Except.error () : Except Unit α) >>= f = Except.error () := rfl

theorem accum_step_snd (s : CategoryTotals × Bool) (i : SAItem)
    (s' : CategoryTotals × Bool)
    (hname : item_category_name i ≠ some ("Rent"))
    (h : accum_step s i = Except.ok s') : s'.2 = s.2 := by
  cases i with
  | nondict =>
    simp only [accum_step] at h
    injection h with h2
    rw [← h2]
  | entry c =>
    have hname' : ¬c.name = some ("Rent") := by
      simpa [item_category_name] using hname
    simp only [accum_step] at h
    rw [if_neg hname'] at h
    by_cases h1 : c.name = some ("Insurance")
    · rw [if_pos h1] at h
      cases hga : get_amount_from_analysis_category c ("averageTransactionAmount") with
      | error e => cases e; rw [hga, except_bind_error] at h; exact Except.noConfusion h
      | ok a =>
        rw [hga, except_bind_ok] at h
        injection h with h2
        rw [← h2]
        by_cases hlt : 0 < a <;> simp [hlt]
    · rw [if_neg h1] at h
      by_cases h2 : c.name = some ("Wages")
      · rw [if_pos h2] at h
        cases hga : get_amount_from_analysis_category c ("averageTransactionAmount") with
        | error e => cases e; rw [hga, except_bind_error] at h; exact Except.noConfusion h
        | ok a =>
          rw [hga, except_bind_ok] at h
          injection h with h3
          rw [← h3]
          by_cases hlt : 0 < a <;> simp [hlt]
      · rw [if_neg h2] at h
        by_cases h3 : c.name = some ("Centrelink")
        · rw [if_pos h3] at h
          cases hga : get_amount_from_analysis_category c ("averageTransactionAmount") with
          | error e => cases e; rw [hga, except_bind_error] at h; exact Except.noConfusion h
          | ok a =>
            rw [hga, except_bind_ok] at h
            injection h with h4
            rw [← h4]
            by_cases hlt : 0 < a <;> simp [hlt]
        · rw [if_neg h3] at h
          by_cases h4 : c.name = some ("Gambling")
          · rw [if_pos h4] at h
            cases hd : sum_points_value c.analysisPoints ("totalAmountDebits") with
            | error e => cases e; rw [hd, except_bind_error] at h; exact Except.noConfusion h
            | ok d =>
              rw [hd, except_bind_ok] at h
              cases hcr : sum_points_value c.analysisPoints ("totalAmountCredits") with
              | error e => cases e; rw [hcr, except_bind_error] at h; exact Except.noConfusion h
              | ok cr =>
                rw [hcr, except_bind_ok] at h
                injection h with h5
                rw [← h5]
          · rw [if_neg h4] at h
            injection h with h5
            rw [← h5]

theorem accum_loop_snd : ∀ (sa : List SAItem) (s s' : CategoryTotals × Bool),
    (∀ i ∈ sa, item_category_name i ≠ some ("Rent")) →
    accum_loop sa s = Except.ok s' → s'.2 = s.2 := by
  intro sa
  induction sa with
  | nil =>
    intro s s' _ h
    simp only [accum_loop] at h
    injection h with h2
    rw [← h2]
  | cons i rest ih =>
    intro s s' hn h
    simp only [accum_loop] at h
    cases hstep : accum_step s i with
    | error e => cases e; rw [hstep, except_bind_error] at h; exact Except.noConfusion h
    | ok s1 =>
      rw [hstep, except_bind_ok] at h
      have hs1 := ih s1 s' (fun i hm => hn i (List.mem_cons_of_mem _ hm)) h
      rw [hs1, accum_step_snd s i s1 (hn i (List.mem_cons_self _ _)) hstep]

theorem accum_step_safe (s : CategoryTotals × Bool) (i : SAItem)
    (hs : safe_item i = true) : ∃ s', accum_step s i = Except.ok s' := by
  cases i with
  | nondict => exact ⟨s, rfl⟩
  | entry c =>
    simp only [safe_item, Bool.and_eq_true, List.all_eq_true] at hs
    obtain ⟨hg, hp⟩ := hs
    by_cases h0 : c.name = some ("Rent")
    · obtain ⟨ts, hts⟩ := collect_transactions_tlist _ hg
      refine ⟨({ s.1 with rent := s.1.rent + get_top_recurring_transaction_amount ts },
        true), ?_⟩
      simp only [accum_step]
      rw [if_pos h0, hts, except_bind_ok]
    · by_cases h1 : c.name = some ("Insurance")
      · obtain ⟨a, ha⟩ := get_amount_tlist_ok c _ hg
        refine ⟨if 0 < a then ({ s.1 with insurance := s.1.insurance + a }, s.2) else s, ?_⟩
        simp only [accum_step]
        rw [if_neg h0, if_pos h1, ha, except_bind_ok]
      · by_cases h2 : c.name = some ("Wages")
        · obtain ⟨a, ha⟩ := get_amount_tlist_ok c _ hg
          refine ⟨if 0 < a then ({ s.1 with wages := s.1.wages + a }, s.2) else s, ?_⟩
          simp only [accum_step]
          rw [if_neg h0, if_neg h1, if_pos h2, ha, except_bind_ok]
        · by_cases h3 : c.name = some ("Centrelink")
          · obtain ⟨a, ha⟩ := get_amount_tlist_ok c _ hg
            refine ⟨if 0 < a then ({ s.1 with centrelink := a }, s.2) else s, ?_⟩
            simp only [accum_step]
            rw [if_neg h0, if_neg h1, if_neg h2, if_pos h3, ha, except_bind_ok]
          · by_cases h4 : c.name = some ("Gambling")
            · have hpd : ∀ p ∈ c.analysisPoints, p.name = some ("totalAmountDebits") →
                  val_floatable p.value = true := by
                intro p hm he
                have := hp p hm
                rw [he] at this
                simpa using this
              have hpc : ∀ p ∈ c.analysisPoints, p.name = some ("totalAmountCredits") →
                  val_floatable p.value = true := by
                intro p hm he
                have := hp p hm
                rw [he] at this
                simpa using this
              obtain ⟨d, hd⟩ := sum_points_value_ok _ ("totalAmountDebits") hpd
              obtain ⟨cr, hcr⟩ := sum_points_value_ok _ ("totalAmountCredits") hpc
              refine ⟨({ s.1 with gambling := s.1.gambling +
                (if 0 < d - cr then round2 ((d - cr) / 6 * 12 / 26) else 0) }, s.2), ?_⟩
              simp only [accum_step]
              rw [if_neg h0, if_neg h1, if_neg h2, if_neg h3, if_pos h4, hd,
                except_bind_ok, hcr, except_bind_ok]
            · refine ⟨s, ?_⟩
              simp only [accum_step]
              rw [if_neg h0, if_neg h1, if_neg h2, if_neg h3, if_neg h4]

theorem accum_loop_safe : ∀ (sa : List SAItem) (s : CategoryTotals × Bool),
    (∀ i ∈ sa, safe_item i = true) →
    ∃ s', accum_loop sa s = Except.ok s' := by
  intro sa
  induction sa with
  | nil => intro s _; exact ⟨s, rfl⟩
  | cons i rest ih =>
    intro s hs
    obtain ⟨s1, hs1⟩ := accum_step_safe s i (hs i (List.mem_cons_self _ _))
    obtain ⟨s', hs'⟩ := ih s1 (fun i hm => hs i (List.mem_cons_of_mem _ hm))
    refine ⟨s', ?_⟩
    simp only [accum_loop]
    rw [hs1, except_bind_ok, hs']

end CashFaster

namespace CashFaster

/-- The category totals immediately after the reset at the top of
accumulate_metrics_from_statement_analysis, starting from
init_category_totals. -/
def reset_totals : CategoryTotals :=
  { wages := 0, centrelink := 0, sacc := SaccVal.breakdown [], debtCollection := 0,
    livingExpenses := 0, rent := 0, gambling := 0, insurance := 0 }

theorem accumulate_of_loop (svc : ℤ → ℕ → Option ℚ) (sa : List SAItem)
    (t0 : CategoryTotals) (t1 : CategoryTotals) (rf : Bool)
    (hsacc : calculate_sacc_loans svc sa = [])
    (hloop : accum_loop sa
      ({ t0 with rent := 0, centrelink := 0, gambling := 0,
                 sacc := SaccVal.breakdown [], debtCollection := 0, wages := 0,
                 insurance := 0 }, false) = Except.ok (t1, rf)) :
    accumulate_metrics_from_statement_analysis svc sa t0 =
      Except.ok (if rf then t1 else { t1 with rent := 0 }) := by
  simp only [accumulate_metrics_from_statement_analysis, hsacc, List.isEmpty_nil,
    reduceIte, hloop]

/-! ## Concrete inputs used by the claim theorems -/

/-- A Gambling analysis category with totalAmountDebits 1200 and
totalAmountCredits 0. -/
def gambling_category_1200 : AnalysisCategory :=
  { name := some ("Gambling"),
    analysisPoints :=
      [ { name := some ("totalAmountDebits"), value := Val.num 1200 },
        { name := some ("totalAmountCredits"), value := Val.num 0 } ],
    transactionGroups := [] }

def gambling_entry_1200 : SAItem := SAItem.entry gambling_category_1200

/-- A Gambling entry whose totalAmountDebits analysis point holds a
non-numeric string. -/
def gambling_bad_entry : SAItem := SAItem.entry
  { name := some ("Gambling"),
    analysisPoints := [ { name := some ("totalAmountDebits"), value := Val.strBad } ],
    transactionGroups := [] }

/-- A Wages entry whose averageTransactionAmount analysis point holds a
non-numeric string (coerced to 0.0 by the amount-extraction helper). -/
def wages_bad_entry : SAItem := SAItem.entry
  { name := some ("Wages"),
    analysisPoints := [ { name := some ("averageTransactionAmount"), value := Val.strBad } ],
    transactionGroups := [] }

/-- A SACC Loans entry with one group whose first credit-tagged
transaction has amount -50 and whose second has amount 100. -/
def sacc_group_cex : SAItem := SAItem.entry
  { name := some ("SACC Loans"), analysisPoints := [],
    transactionGroups :=
      [ { name := some ("P"),
          transactions := TransField.tlist
            [ { amount := Val.num (-50), tags := [Tag.tdict (some ("credit"))] },
              { amount := Val.num 100, tags := [Tag.tdict (some ("credit"))] } ] } ] }

/-- A category with no matching analysis point and one group whose
transactions field is a (nonempty) JSON string encoding one
transaction of amount 5. -/
def c4_category : AnalysisCategory :=
  { name := some ("Other Loans"), analysisPoints := [],
    transactionGroups :=
      [ { name := some ("P"),
          transactions := TransField.tstr ("[...]")
            (some [ { amount := Val.num 5, tags := [] } ]) } ] }

/-- A category with no totalAmount analysis point and one ordinary
transaction-list group. -/
def c4_good_category : AnalysisCategory :=
  { name := some ("Other"),
    analysisPoints := [ { name := some ("somethingElse"), value := Val.num 7 } ],
    transactionGroups :=
      [ { name := some ("P"),
          transactions := TransField.tlist
            [ { amount := Val.num (-3), tags := [] },
              { amount := Val.strBad, tags := [] } ] } ] }

/-- A Centrelink entry whose averageTransactionAmount analysis point is
the number q. -/
def centrelink_entry (q : ℚ) : SAItem := SAItem.entry
  { name := some ("Centrelink"),
    analysisPoints := [ { name := some ("averageTransactionAmount"), value := Val.num q } ],
    transactionGroups := [] }

/-- A Centrelink category whose extracted averageTransactionAmount is
0.0 (non-numeric value, no transaction groups). -/
def centrelink_zero_category : AnalysisCategory :=
  { name := some ("Centrelink"),
    analysisPoints := [ { name := some ("averageTransactionAmount"), value := Val.strBad } ],
    transactionGroups := [] }

/-! ## Claim theorems -/

/-- C1, counterexample: on the Gambling entry with debits 1200 and
credits 0, the accumulated Gambling total is 92.31, not the 923.08 the
claim states. -/
theorem claim_C1_counterexample :
    (accumulate_metrics_from_statement_analysis svc_none [gambling_entry_1200]
      init_category_totals).map CategoryTotals.gambling =
      Except.ok ((9231 : ℚ) / 100) ∧
    ((9231 : ℚ) / 100 ≠ (92308 : ℚ) / 100) := by
  refine ⟨?_, by norm_num⟩
  have hstep : accum_step (reset_totals, false) gambling_entry_1200 =
      Except.ok ({ reset_totals with
        gambling := reset_totals.gambling + round2 (1200 / 6 * 12 / 26) }, false) := by
    simp only [accum_step, gambling_entry_1200, gambling_category_1200, String.reduceEq,
      reduceIte, sum_points_value, py_float_exn, except_bind_ok, Option.some.injEq]
    norm_num [except_bind_ok, round2, round_eq]
  have hloop : accum_loop [gambling_entry_1200] (reset_totals, false) =
      Except.ok ({ reset_totals with
        gambling := reset_totals.gambling + round2 (1200 / 6 * 12 / 26) }, false) := by
    simp only [accum_loop, hstep, except_bind_ok]
  have hacc := accumulate_of_loop svc_none [gambling_entry_1200] init_category_totals
    _ false rfl hloop
  rw [hacc]
  simp only [reduceIte, Except.map]
  norm_num [reset_totals, round2, round_eq]

/-- C1 (amended): for a Gambling entry whose analysisPoints give
totalAmountDebits 1200 and totalAmountCredits 0, the net is 1200 and
the fortnightly contribution accumulated into the Gambling total equals
round(((1200/6)*12)/26, 2) = 92.31. -/
theorem claim_C1_theorem :
    sum_points_value gambling_category_1200.analysisPoints ("totalAmountDebits") =
      Except.ok 1200 ∧
    sum_points_value gambling_category_1200.analysisPoints ("totalAmountCredits") =
      Except.ok 0 ∧
    (accumulate_metrics_from_statement_analysis svc_none [gambling_entry_1200]
      init_category_totals).map CategoryTotals.gambling =
      Except.ok (round2 (1200 / 6 * 12 / 26)) ∧
    round2 (1200 / 6 * 12 / 26) = (9231 : ℚ) / 100 := by
  refine ⟨?_, ?_, ?_, by norm_num [round2, round_eq]⟩
  · simp only [gambling_category_1200, sum_points_value, py_float_exn, except_bind_ok,
      String.reduceEq, reduceIte, Option.some.injEq]
    norm_num [except_bind_ok]
  · simp only [gambling_category_1200, sum_points_value, py_float_exn, except_bind_ok,
      String.reduceEq, reduceIte, Option.some.injEq]
    norm_num [except_bind_ok]
  · have hstep : accum_step (reset_totals, false) gambling_entry_1200 =
        Except.ok ({ reset_totals with
          gambling := reset_totals.gambling + round2 (1200 / 6 * 12 / 26) }, false) := by
      simp only [accum_step, gambling_entry_1200, gambling_category_1200, String.reduceEq,
        reduceIte, sum_points_value, py_float_exn, except_bind_ok, Option.some.injEq]
      norm_num [except_bind_ok, round2, round_eq]
    have hloop : accum_loop [gambling_entry_1200] (reset_totals, false) =
        Except.ok ({ reset_totals with
          gambling := reset_totals.gambling + round2 (1200 / 6 * 12 / 26) }, false) := by
      simp only [accum_loop, hstep, except_bind_ok]
    have hacc := accumulate_of_loop svc_none [gambling_entry_1200] init_category_totals
      _ false rfl hloop
    rw [hacc]
    simp only [reduceIte, Except.map]
    norm_num [reset_totals]

/-- C2, counterexample: a non-numeric totalAmountDebits value in a
Gambling entry makes the per-entry categorization pass raise (modelled
as Except.error) instead of being coerced to 0.0. -/
theorem claim_C2_counterexample :
    accumulate_metrics_from_statement_analysis svc_none [gambling_bad_entry]
      init_category_totals = Except.error () := rfl

/-- C2 (amended): the per-entry categorization pass never raises
provided every transactions field is an actual list and every Gambling
totalAmountDebits/totalAmountCredits analysis point holds a value the
bare float() accepts; under those conditions non-numeric or missing
amount fields elsewhere are coerced to 0.0 by the extraction helpers
rather than failing the pass. -/
theorem claim_C2_theorem (svc : ℤ → ℕ → Option ℚ) (sa : List SAItem)
    (t0 : CategoryTotals) (hs : ∀ i ∈ sa, safe_item i = true) :
    ∃ t', accumulate_metrics_from_statement_analysis svc sa t0 = Except.ok t' := by
  simp only [accumulate_metrics_from_statement_analysis]
  obtain ⟨⟨t1, rf⟩, hs'⟩ := accum_loop_safe sa _ hs
  rw [hs']
  exact ⟨if rf then t1 else { t1 with rent := 0 }, rfl⟩

/-- C2, witness: a Wages entry whose averageTransactionAmount value is
a non-numeric string satisfies the safety condition and the pass
completes on it. -/
theorem claim_C2_witness :
    (∀ i ∈ [wages_bad_entry], safe_item i = true) ∧
    ∃ t', accumulate_metrics_from_statement_analysis svc_none [wages_bad_entry]
      init_category_totals = Except.ok t' :=
  ⟨by decide, claim_C2_theorem svc_none [wages_bad_entry] init_category_totals (by decide)⟩

/-- C3, counterexample: the SACC resolver records 100 (the first
credit-tagged transaction with a positive numeric amount), not the -50
carried by the first credit-tagged transaction of the group. -/
theorem claim_C3_counterexample :
    sacc_results [sacc_group_cex] = [(("P"), (100 : ℚ))] ∧
    ((100 : ℚ) ≠ (-50 : ℚ)) :=
  ⟨rfl, by norm_num⟩

/-- C3 (amended): for a transaction group under a SACC Loans category,
the resolver records the amount of the first transaction carrying a
credit tag whose amount is numeric and strictly positive, and stops the
scan there; credit-tagged transactions with non-positive or non-numeric
amounts are passed over. -/
theorem claim_C3_theorem (ts : List Transaction) (nm : String) :
    sacc_results [SAItem.entry
      { name := some ("SACC Loans"), analysisPoints := [],
        transactionGroups := [{ name := some nm, transactions := TransField.tlist ts }] }] =
      match ts.find? (fun t => is_credit_tags t.tags && cred_pos_amount t.amount) with
      | some t => [(nm, num_val t.amount)]
      | none => [] := by
  have h := sacc_scan_group_find nm ts []
  show sacc_scan_group nm ts [] = _
  rw [h]
  cases hf : ts.find? (fun t => is_credit_tags t.tags && cred_pos_amount t.amount) with
  | some t => simp [upsert]
  | none => rfl

/-- C4, counterexample: on a category with no matching analysis point
whose only group carries a JSON-string transactions field, the helper
raises (Except.error) instead of returning the sum (here 5) of the
encoded transaction amounts. -/
theorem claim_C4_counterexample :
    get_amount_from_analysis_category c4_category ("totalAmount") = Except.error () ∧
    get_amount_from_analysis_category c4_category ("totalAmount") ≠ Except.ok (5 : ℚ) := by
  refine ⟨rfl, ?_⟩
  intro h
  rw [show get_amount_from_analysis_category c4_category ("totalAmount") =
    Except.error () from rfl] at h
  exact Except.noConfusion h

/-- C4 (amended): when no analysis point matches, the helper returns the
sum of absolute transaction amounts over the groups whose transactions
field is an actual list; a group whose field is a nonempty JSON string
makes the helper raise instead of contributing. -/
theorem claim_C4_theorem (c : AnalysisCategory) (key : String)
    (h1 : ∀ p ∈ c.analysisPoints, p.name ≠ some key)
    (h2 : ∀ g ∈ c.transactionGroups, trans_ok g.transactions = true) :
    get_amount_from_analysis_category c key =
      Except.ok (spec_fallback_total c.transactionGroups) := by
  unfold get_amount_from_analysis_category
  have hf : c.analysisPoints.find? (fun p => decide (p.name = some key)) = none := by
    rw [List.find?_eq_none]
    intro p hm
    simp [h1 p hm]
  rw [hf, get_amount_fallback_tlist _ _ h2, zero_add]

/-- C4, witness: the amended fallback evaluated on a concrete category
with one list-valued group (amounts -3 and a non-numeric string,
summing to 3). -/
theorem claim_C4_witness :
    (∀ p ∈ c4_good_category.analysisPoints, p.name ≠ some ("totalAmount")) ∧
    (∀ g ∈ c4_good_category.transactionGroups, trans_ok g.transactions = true) ∧
    get_amount_from_analysis_category c4_good_category ("totalAmount") =
      Except.ok (spec_fallback_total c4_good_category.transactionGroups) :=
  ⟨by decide, by decide, claim_C4_theorem _ _ (by decide) (by decide)⟩

/-- C5 (confirmed): two Centrelink entries with averageTransactionAmount
500 then 300 leave the Centrelink total at 300 (last value wins), not
800. -/
theorem claim_C5_theorem :
    (accumulate_metrics_from_statement_analysis svc_none
      [centrelink_entry 500, centrelink_entry 300] init_category_totals).map
      CategoryTotals.centrelink = Except.ok ((300 : ℚ)) ∧
    ((300 : ℚ) ≠ (800 : ℚ)) :=
  ⟨rfl, by norm_num⟩

end CashFaster

namespace CashFaster

/-- C6 (confirmed): calculate_totals satisfies
totalIncome = round(Wages + Centrelink, 2),
totalExpenses = round(sum of SACC breakdown values + Debt Collection +
Living Expenses, 2), surplus = round(totalIncome - totalExpenses, 2);
in particular Wages 1000, Centrelink 300, breakdown X=100, Debt
Collection 50, Living Expenses 200 yield (1300.00, 350.00, 950.00). -/
theorem claim_C6_theorem :
    (∀ (w c d l r g i : ℚ) (m : List (String × ℚ)),
      calculate_totals
          { wages := w, centrelink := c, sacc := SaccVal.breakdown m,
            debtCollection := d, livingExpenses := l, rent := r, gambling := g,
            insurance := i } =
        (round2 (w + c), round2 ((m.map Prod.snd).sum + d + l),
         round2 (round2 (w + c) - round2 ((m.map Prod.snd).sum + d + l)))) ∧
    calculate_totals
        { wages := 1000, centrelink := 300,
          sacc := SaccVal.breakdown [(("X"), 100)], debtCollection := 50,
          livingExpenses := 200, rent := 0, gambling := 0, insurance := 0 } =
      (1300, 350, 950) := by
  constructor
  · intro w c d l r g i m
    simp [calculate_totals, income_category_labels, category_value, String.reduceEq,
      reduceIte]
  · simp only [calculate_totals, income_category_labels, category_value,
      String.reduceEq, reduceIte, List.map_cons, List.map_nil, List.sum_cons,
      List.sum_nil]
    norm_num [round2, round_eq]

/-- C7 (confirmed): a decision-metrics list with no entry named
Rent - Monthly yields Living Expenses 0.0 regardless of its other
entries. -/
theorem claim_C7_theorem (ms : List DecisionMetric)
    (h : ∀ m ∈ ms, m.name ≠ some ("Rent - Monthly")) :
    categorize_data_living_expenses ms = 0 := by
  unfold categorize_data_living_expenses
  rw [living_expenses_loop_no_rent ms 0 h]
  norm_num [round2]

/-- C7, witness: a one-entry metrics list without a Rent - Monthly
entry. -/
theorem claim_C7_witness :
    (∀ m ∈ [({ name := some ("Food - Monthly"), value := ("$100") } : DecisionMetric)],
      m.name ≠ some ("Rent - Monthly")) ∧
    categorize_data_living_expenses
      [{ name := some ("Food - Monthly"), value := ("$100") }] = 0 :=
  ⟨by decide, claim_C7_theorem _ (by decide)⟩

theorem counter_first_ge3 (as : List ℚ) :
    (if as.isEmpty then 0 else
      match (counter_items as).find? (fun pr => decide (3 ≤ pr.2)) with
      | some pr => pr.1
      | none => (0 : ℚ)) =
    (as.find? (fun a => decide (3 ≤ as.count a))).getD 0 := by
  cases has : as.isEmpty with
  | true =>
    rw [List.isEmpty_iff] at has
    subst has
    simp
  | false =>
    simp only [has, Bool.false_eq_true, if_false]
    rw [counter_items, List.find?_map, counter_keys_find?]
    have hp : ((fun pr : ℚ × ℕ => decide (3 ≤ pr.2)) ∘ fun a => (a, as.count a)) =
        fun a => decide (3 ≤ as.count a) := rfl
    rw [hp]
    cases hf : as.find? (fun a => decide (3 ≤ as.count a)) with
    | some a => rfl
    | none => rfl

/-- C8 (confirmed): the recurring-amount detector keeps only numeric
amounts < 0 as absolute values and returns the first amount in
encounter order whose occurrence count is at least 3, else 0.0. -/
theorem claim_C8_theorem (ts : List Transaction) :
    get_top_recurring_transaction_amount ts = spec_recurring_amount ts :=
  counter_first_ge3 _

/-- C9 (confirmed): with no Rent-named category entry, the Rent total
after the categorization pass is 0.0. -/
theorem claim_C9_theorem (svc : ℤ → ℕ → Option ℚ) (sa : List SAItem)
    (t0 t' : CategoryTotals)
    (hn : ∀ i ∈ sa, item_category_name i ≠ some ("Rent"))
    (h : accumulate_metrics_from_statement_analysis svc sa t0 = Except.ok t') :
    t'.rent = 0 := by
  simp only [accumulate_metrics_from_statement_analysis] at h
  split at h
  · exact Except.noConfusion h
  · rename_i t1 rf heq
    have hrf : rf = false := accum_loop_snd sa _ _ hn heq
    subst hrf
    simp only [Bool.false_eq_true, if_false] at h
    injection h with h2
    rw [← h2]

/-- C9, witness: the empty statement-analysis list has no Rent entry and
the pass yields a totals record with Rent 0. -/
theorem claim_C9_witness :
    accumulate_metrics_from_statement_analysis svc_none [] init_category_totals =
      Except.ok reset_totals ∧ reset_totals.rent = 0 :=
  ⟨rfl, claim_C9_theorem svc_none [] init_category_totals reset_totals (by simp) rfl⟩

/-- C10 (confirmed, implicit): a Centrelink entry whose extracted
averageTransactionAmount is 0.0 leaves the state of the per-entry loop
unchanged: the previously recorded Centrelink value is kept, so
last-wins only applies to entries with a positive extracted amount. -/
theorem claim_C10_theorem (t : CategoryTotals) (rf : Bool) (c : AnalysisCategory)
    (hname : c.name = some ("Centrelink"))
    (hget : get_amount_from_analysis_category c ("averageTransactionAmount") =
      Except.ok 0) :
    accum_step (t, rf) (SAItem.entry c) = Except.ok (t, rf) := by
  simp only [accum_step]
  rw [if_neg (by rw [hname]; decide), if_neg (by rw [hname]; decide),
    if_neg (by rw [hname]; decide), if_pos hname, hget, except_bind_ok,
    if_neg (lt_irrefl (0 : ℚ))]

/-- C10, witness: a Centrelink category with a non-numeric
averageTransactionAmount value and no transaction groups extracts 0.0
and does not disturb the state. -/
theorem claim_C10_witness :
    centrelink_zero_category.name = some ("Centrelink") ∧
    get_amount_from_analysis_category centrelink_zero_category
      ("averageTransactionAmount") = Except.ok 0 ∧
    accum_step (init_category_totals, false) (SAItem.entry centrelink_zero_category) =
      Except.ok (init_category_totals, false) :=
  ⟨rfl, rfl, claim_C10_theorem init_category_totals false centrelink_zero_category rfl rfl⟩

end CashFaster
